import Mathlib

/-!
Verification of the gamepad-proxy forwarder (src/gamepad.py) against its
natural-language specification.  The Python source is shallowly embedded:
pure computations become Lean functions, the stateful parts (the filesystem
touched by create_symlinks, the action sequence emitted by run) become
explicit state passing and traces over inductive action types.
-/

namespace GamepadProxy

/-- Calibration metadata of one absolute axis, mirroring evdev's AbsInfo
record: (value, min, max, fuzz, flat, resolution). -/
structure AbsInfo where
  value : Int
  min : Int
  max : Int
  fuzz : Int
  flat : Int
  resolution : Int
deriving DecidableEq, Repr

/-- One raw entry of the EV_ABS list returned by dev.capabilities(absinfo=True)
in gamepad.py: either a (code, AbsInfo) pair, or — the defensive branch at
lines 66-78 — a bare integer code for which the per-code fallback
dev.absinfo(code) must be queried. -/
inductive RawAbsEntry
  | withInfo (code : Nat) (info : AbsInfo)
  | codeOnly (code : Nat)
deriving DecidableEq, Repr

/-- Model of an open physical input device as observed by gamepad.py:
the raw capability dictionary (rawKeys is raw.get(EV_KEY, []), rawAbs is
raw.get(EV_ABS, []), rawFF is raw.get(EV_FF, [])), the per-code absinfo
query — absinfoQ c = none models both dev.absinfo(code) raising an
exception and it returning None, the two branches that `continue` at
lines 69-78 — and the identity fields of dev.info. -/
structure Device where
  rawKeys : List Nat
  rawAbs : List RawAbsEntry
  rawFF : List Nat
  absinfoQ : Nat → Option AbsInfo
  bustype : Nat
  vendor : Nat
  product : Nat
  version : Nat

/-- Capability descriptor built by extract_capabilities: the `caps` dict of
gamepad.py, one optional field per event-category key (none = key absent
from the dict). -/
structure Capabilities where
  keys : Option (List Nat)
  abs : Option (List (Nat × AbsInfo))
  ff : Option (List Nat)
deriving DecidableEq, Repr

/-- Processing of a single EV_ABS entry by the loop body at lines 63-79 of
gamepad.py: a (code, AbsInfo) tuple is used directly; a bare code goes
through dev.absinfo(code) and is dropped (`continue`) when that query
fails or returns None. -/
def processAbsEntry (dev : Device) : RawAbsEntry → Option (Nat × AbsInfo)
  | RawAbsEntry.withInfo c i => some (c, i)
  | RawAbsEntry.codeOnly c => (dev.absinfoQ c).map (fun i => (c, i))

/-- Contents of the `abs_list` accumulator after the for-loop at lines 63-79:
entries are appended in raw order, failed entries contribute nothing. -/
def absList (dev : Device) : List (Nat × AbsInfo) :=
  dev.rawAbs.filterMap (processAbsEntry dev)

/-- Embedding of extract_capabilities (gamepad.py lines 44-89):
caps[EV_KEY] is set unconditionally to raw.get(EV_KEY, []); caps[EV_ABS] is
set only when abs_list is non-empty; caps[EV_FF] only when the EV_FF list is
non-empty. -/
def extract_capabilities (dev : Device) : Capabilities :=
  let al := absList dev
  { keys := some dev.rawKeys
  , abs := if al = [] then none else some al
  , ff := if dev.rawFF = [] then none else some dev.rawFF }

/-- Device dev with the per-code absinfo query failing at code c (raising or
returning None), everything else unchanged. -/
def failAbsinfoAt (dev : Device) (c : Nat) : Device :=
  { dev with absinfoQ := fun x => if x = c then none else dev.absinfoQ x }

/-- Device dev with the bare (metadata-less) EV_ABS entries carrying code c
removed from the raw capability list, everything else unchanged. -/
def dropBareCode (dev : Device) (c : Nat) : Device :=
  { dev with rawAbs := dev.rawAbs.filter (fun e => e ≠ RawAbsEntry.codeOnly c) }

lemma processAbsEntry_failAt (dev : Device) (c : Nat) (e : RawAbsEntry) :
    processAbsEntry (failAbsinfoAt dev c) e =
      if e = RawAbsEntry.codeOnly c then none else processAbsEntry dev e := by
  cases e with
  | withInfo a i => simp [processAbsEntry]
  | codeOnly a =>
      by_cases h : a = c
      · subst h; simp [processAbsEntry, failAbsinfoAt]
      · simp [processAbsEntry, failAbsinfoAt, h]

lemma absList_failAt (dev : Device) (c : Nat) :
    absList (failAbsinfoAt dev c) = absList (dropBareCode dev c) := by
  show (failAbsinfoAt dev c).rawAbs.filterMap (processAbsEntry (failAbsinfoAt dev c))
      = (dropBareCode dev c).rawAbs.filterMap (processAbsEntry (dropBareCode dev c))
  have hq : processAbsEntry (dropBareCode dev c) = processAbsEntry dev := rfl
  rw [hq]
  show dev.rawAbs.filterMap (processAbsEntry (failAbsinfoAt dev c))
      = (dev.rawAbs.filter (fun e => e ≠ RawAbsEntry.codeOnly c)).filterMap
          (processAbsEntry dev)
  induction dev.rawAbs with
  | nil => simp
  | cons e rest ih =>
      by_cases h : e = RawAbsEntry.codeOnly c
      · subst h
        simp [List.filterMap_cons, processAbsEntry_failAt, ih]
      · simp [List.filterMap_cons, processAbsEntry_failAt, h, ih]

/-- Claim C5: a per-code calibration-metadata query failure (the fallback
query raising or returning None) is non-fatal and local.  Making the query
fail at one code produces exactly the descriptor obtained by deleting that
code's bare entries from the raw list: the digital-button list, every other
absolute-axis entry, and the force-feedback list are produced exactly as
without the failure. -/
theorem c5_per_code_failure_local (dev : Device) (c : Nat) :
    extract_capabilities (failAbsinfoAt dev c)
        = extract_capabilities (dropBareCode dev c)
    ∧ (extract_capabilities (failAbsinfoAt dev c)).keys
        = (extract_capabilities dev).keys
    ∧ (extract_capabilities (failAbsinfoAt dev c)).ff
        = (extract_capabilities dev).ff := by
  refine ⟨?_, rfl, rfl⟩
  simp only [extract_capabilities, absList_failAt]
  rfl

/-- Claim C4: every absolute-axis entry present in a descriptor carries
metadata actually obtained from the device — inline from the bulk query or
via the per-code fallback — and an axis code whose metadata cannot be
obtained by either path is excluded from the descriptor. -/
theorem c4_abs_metadata_complete (dev : Device) (l : List (Nat × AbsInfo))
    (h : (extract_capabilities dev).abs = some l) :
    (∀ p ∈ l, RawAbsEntry.withInfo p.1 p.2 ∈ dev.rawAbs
        ∨ dev.absinfoQ p.1 = some p.2)
    ∧ ∀ c, dev.absinfoQ c = none →
        (∀ i, RawAbsEntry.withInfo c i ∉ dev.rawAbs) →
        ∀ i, (c, i) ∉ l := by
  have hl : l = absList dev := by
    by_cases he : absList dev = []
    · simp [extract_capabilities, he] at h
    · simp [extract_capabilities, he] at h
      exact h.symm
  subst hl
  constructor
  · intro p hp
    rcases List.mem_filterMap.mp hp with ⟨e, he, hpe⟩
    cases e with
    | withInfo a i =>
        left
        have hp2 : (a, i) = p := by simpa [processAbsEntry] using hpe
        subst hp2
        exact he
    | codeOnly a =>
        right
        cases hmap : dev.absinfoQ a with
        | none =>
            rw [processAbsEntry, hmap] at hpe
            cases hpe
        | some j =>
            rw [processAbsEntry, hmap] at hpe
            have hp2 : (a, j) = p := by simpa using hpe
            subst hp2
            exact hmap
  · intro c hc hno i hmem
    rcases List.mem_filterMap.mp hmem with ⟨e, he, hpe⟩
    cases e with
    | withInfo a j =>
        have h2 : a = c ∧ j = i := by
          simpa [processAbsEntry, Prod.ext_iff] using hpe
        obtain ⟨ha, hj⟩ := h2
        subst ha
        exact hno j he
    | codeOnly a =>
        cases hmap : dev.absinfoQ a with
        | none =>
            rw [processAbsEntry, hmap] at hpe
            cases hpe
        | some j =>
            rw [processAbsEntry, hmap] at hpe
            have h2 : a = c ∧ j = i := by simpa [Prod.ext_iff] using hpe
            obtain ⟨ha, hj⟩ := h2
            subst ha
            rw [hc] at hmap
            cases hmap

/-- Concrete device used to instantiate the C4 theorem: one inline axis
entry, one bare code whose fallback succeeds, one bare code whose fallback
fails. -/
def c4Dev : Device :=
  { rawKeys := [304, 305]
  , rawAbs := [RawAbsEntry.withInfo 0 ⟨0, 0, 255, 0, 15, 0⟩,
               RawAbsEntry.codeOnly 1, RawAbsEntry.codeOnly 2]
  , rawFF := []
  , absinfoQ := fun c => if c = 1 then some ⟨0, -128, 127, 0, 0, 0⟩ else none
  , bustype := 3, vendor := 4152, product := 5152, version := 273 }

/-- Witness for C4 at the concrete device c4Dev: its descriptor's EV_ABS list
evaluates to the two obtainable entries, and the theorem applies to it. -/
theorem c4_abs_metadata_complete_witness :
    (extract_capabilities c4Dev).abs
        = some [(0, ⟨0, 0, 255, 0, 15, 0⟩), (1, ⟨0, -128, 127, 0, 0, 0⟩)]
    ∧ ((∀ p ∈ [((0 : Nat), (⟨0, 0, 255, 0, 15, 0⟩ : AbsInfo)),
                (1, ⟨0, -128, 127, 0, 0, 0⟩)],
          RawAbsEntry.withInfo p.1 p.2 ∈ c4Dev.rawAbs
            ∨ c4Dev.absinfoQ p.1 = some p.2)
        ∧ ∀ c, c4Dev.absinfoQ c = none →
            (∀ i, RawAbsEntry.withInfo c i ∉ c4Dev.rawAbs) →
            ∀ i, (c, i) ∉ [((0 : Nat), (⟨0, 0, 255, 0, 15, 0⟩ : AbsInfo)),
                           (1, ⟨0, -128, 127, 0, 0, 0⟩)]) :=
  ⟨by rfl, c4_abs_metadata_complete c4Dev _ (by rfl)⟩

/-- Claim C7: the digital-button category is included unconditionally —
passed through exactly as read, even when empty — while the force-feedback
category is present iff the source's force-feedback list is non-empty. -/
theorem c7_keys_ff_inclusion (dev : Device) :
    (extract_capabilities dev).keys = some dev.rawKeys
    ∧ ((extract_capabilities dev).ff.isSome ↔ dev.rawFF ≠ [])
    ∧ (extract_capabilities dev).ff
        = (if dev.rawFF = [] then none else some dev.rawFF) := by
  refine ⟨rfl, ?_, rfl⟩
  by_cases h : dev.rawFF = [] <;> simp [extract_capabilities, h]

/-- Claim C10 (implicit): the absolute-axis category is omitted from the
descriptor exactly when no axis entry with obtainable metadata exists
(no raw entries, or every bare entry's fallback query fails), asymmetric
with the digital-button category which is always present. -/
theorem c10_abs_omitted_when_empty (dev : Device) :
    ((extract_capabilities dev).abs = none
        ↔ ∀ e ∈ dev.rawAbs, processAbsEntry dev e = none)
    ∧ (extract_capabilities dev).keys = some dev.rawKeys := by
  refine ⟨?_, rfl⟩
  have hchar : absList dev = [] ↔ ∀ e ∈ dev.rawAbs, processAbsEntry dev e = none :=
    List.filterMap_eq_nil_iff
  have habs : (extract_capabilities dev).abs
      = if absList dev = [] then none else some (absList dev) := rfl
  rw [habs]
  by_cases h : absList dev = []
  · rw [if_pos h]
    simp only [true_iff]
    exact hchar.mp h
  · rw [if_neg h]
    refine ⟨fun hsome => ?_, fun hall => ?_⟩
    · exact (Option.some_ne_none _ hsome).elim
    · exact absurd (hchar.mpr hall) h

/-- An input event as relayed by the forwarding loop: the (type, code, value)
triple of an evdev event (e.type, e.code, e.value at line 187 of
gamepad.py). -/
structure Event where
  etype : Nat
  ecode : Nat
  evalue : Int
deriving DecidableEq, Repr

/-- Observable actions of run() in gamepad.py, in the order the code performs
them: opening the physical device (wait_for_device returning), querying its
capabilities, reading its identity, closing it, constructing the UInput
virtual device, invoking create_symlinks, grabbing a physical handle, the
per-event ui.write / ui.syn calls, and the backoff time.sleep. -/
inductive Action
  | openPhysical
  | queryCapabilities
  | readIdentity
  | closePhysical
  | createVirtual (caps : Capabilities) (bus : Nat) (vendor : Nat)
      (product : Nat) (version : Nat)
  | publishAliases (ok : Bool)
  | grab
  | writeEvent (etype : Nat) (ecode : Nat) (evalue : Int)
  | syn
  | sleep (secs : Nat)
deriving DecidableEq, Repr

/-- Selector for the virtual-device-creation action. -/
def isCreate : Action → Bool
  | Action.createVirtual _ _ _ _ _ => true
  | _ => false

/-- Selector for the create_symlinks invocation action. -/
def isPublish : Action → Bool
  | Action.publishAliases _ => true
  | _ => false

/-- One step of the for-loop over dev.read_loop() (gamepad.py lines 184-188):
a non-None event appends ui.write(e.type, e.code, e.value) then ui.syn() to
the virtual device's output; a None yield is skipped. -/
def relayStep (out : List Action) (e : Option Event) : List Action :=
  match e with
  | some ev => out ++ [Action.writeEvent ev.etype ev.ecode ev.evalue, Action.syn]
  | none => out

/-- Virtual-device output produced by relaying a finite prefix of the values
yielded by dev.read_loop(). -/
def relayActions (reads : List (Option Event)) : List Action :=
  reads.foldl relayStep []

/-- Per-event output pair: the verbatim write followed by the
synchronization flush. -/
def writeThenSyn (ev : Event) : List Action :=
  [Action.writeEvent ev.etype ev.ecode ev.evalue, Action.syn]

lemma relayActions_go (reads : List (Option Event)) :
    ∀ out : List Action,
      reads.foldl relayStep out = out ++ (reads.filterMap id).flatMap writeThenSyn := by
  induction reads with
  | nil => intro out; simp
  | cons e rest ih =>
      intro out
      cases e with
      | none => simpa [relayStep] using ih out
      | some ev =>
          simp only [List.foldl_cons, relayStep, List.filterMap_cons]
          rw [ih]
          simp [writeThenSyn, List.append_assoc]

lemma relayActions_eq (reads : List (Option Event)) :
    relayActions reads = (reads.filterMap id).flatMap writeThenSyn := by
  simpa using relayActions_go reads []

lemma relayActions_countP_create (reads : List (Option Event)) :
    (relayActions reads).countP isCreate = 0 := by
  rw [relayActions_eq]
  induction reads.filterMap id with
  | nil => rfl
  | cons ev rest ih => simp [List.countP_append, writeThenSyn, ih, isCreate, List.countP_cons]

/-- Claim C1: during RELAYING the virtual device's output over any finite
read sequence is exactly the input triples in order, each followed by one
synchronization flush — no duplication, drop, or reordering; the defensive
None yields of read_loop contribute nothing. -/
theorem c1_relay_exact :
    (∀ reads : List (Option Event),
        relayActions reads = (reads.filterMap id).flatMap writeThenSyn)
    ∧ ∀ es : List Event,
        relayActions (es.map some) = es.flatMap writeThenSyn := by
  refine ⟨relayActions_eq, fun es => ?_⟩
  rw [relayActions_eq]
  congr 1
  induction es with
  | nil => rfl
  | cons ev rest ih => simp [ih]

/-- Exceptions that can reach the top of the while-loop body of run():
OSError and IOError (the disconnect signature, also raised by a failing
open or grab) are matched by the first handler at line 189; every other
Exception by the second handler at line 192.  BaseException-level process
termination signals (SIGINT, SystemExit) are outside this type, matching
the specification's carve-out that only process termination ends the
loop. -/
inductive PyExc
  | osError
  | ioError
  | otherError
deriving DecidableEq, Repr

/-- Outcome of dispatching an exception against the handlers of the loop
body: caught with a backoff sleep of the given seconds, or escaped from
the loop. -/
inductive Handled
  | caught (backoffSecs : Nat)
  | escaped
deriving DecidableEq, Repr

/-- Exception dispatch of the while-loop body (gamepad.py lines 189-195):
except (OSError, IOError) sleeps 1 second; except Exception prints the
traceback and sleeps 1 second. -/
def dispatch : PyExc → Handled
  | PyExc.osError => Handled.caught 1
  | PyExc.ioError => Handled.caught 1
  | PyExc.otherError => Handled.caught 1

/-- Environment behaviour of one iteration of the forwarding while-loop:
whether dev.grab() raises, the finite prefix of values read before the
stream fails, and the class of the exception that ends the iteration
(read_loop is unbounded, so every iteration ends by an exception). -/
structure IterEnv where
  grabFails : Bool
  reads : List (Option Event)
  termExc : PyExc
deriving DecidableEq, Repr

/-- Exception that actually reaches the loop body's handlers in one
iteration: a failing grab raises OSError before any read happens. -/
def iterExc (env : IterEnv) : PyExc :=
  if env.grabFails then PyExc.osError else env.termExc

/-- Action trace of one iteration of the forwarding while-loop: the
wait_for_device open, then (unless grab fails) the grab and the relayed
events, and finally the fixed 1-second backoff sleep of whichever handler
caught the iteration-ending exception. -/
def iterTrace (env : IterEnv) : List Action :=
  Action.openPhysical ::
    (if env.grabFails then [Action.sleep 1]
     else Action.grab :: (relayActions env.reads ++ [Action.sleep 1]))

/-- Status of the forwarding loop as a supervisor: still looping, or
terminated. -/
inductive LoopStatus
  | running
  | exited
deriving DecidableEq, Repr

/-- One turn of the while-True supervisor: an escaped exception would end
the loop, a caught one re-enters it. -/
def loopStep (s : LoopStatus) (env : IterEnv) : LoopStatus :=
  match s with
  | LoopStatus.exited => LoopStatus.exited
  | LoopStatus.running =>
      match dispatch (iterExc env) with
      | Handled.caught _ => LoopStatus.running
      | Handled.escaped => LoopStatus.exited

/-- Supervisor status after any finite number of loop iterations. -/
def loopRun (its : List IterEnv) : LoopStatus :=
  its.foldl loopStep LoopStatus.running

lemma loopStep_running (env : IterEnv) :
    loopStep LoopStatus.running env = LoopStatus.running := by
  cases h : iterExc env <;> simp [loopStep, dispatch, h]

lemma iterTrace_countP_create (env : IterEnv) :
    (iterTrace env).countP isCreate = 0 := by
  by_cases h : env.grabFails <;>
    simp [iterTrace, h, List.countP_cons, List.countP_append,
      relayActions_countP_create, isCreate]

/-- Claim C2: the forwarding loop has no terminal state.  Every exception
class reaching the top of an iteration is caught and answered with the
fixed 1-second backoff; after any finite sequence of failing iterations
the supervisor is still running; every iteration ends in the backoff sleep
and the next one re-enters the wait for the device link. -/
theorem c2_loop_never_exits :
    (∀ e : PyExc, dispatch e = Handled.caught 1)
    ∧ (∀ its : List IterEnv, loopRun its = LoopStatus.running)
    ∧ (∀ env : IterEnv, (iterTrace env).getLast? = some (Action.sleep 1))
    ∧ (∀ env : IterEnv, (iterTrace env).head? = some Action.openPhysical) := by
  refine ⟨fun e => by cases e <;> rfl, fun its => ?_, fun env => ?_, fun env => rfl⟩
  · induction its with
    | nil => rfl
    | cons env rest ih =>
        show List.foldl loopStep (loopStep LoopStatus.running env) rest
            = LoopStatus.running
        rw [loopStep_running]
        exact ih
  · by_cases h : env.grabFails
    · simp [iterTrace, h]
    · unfold iterTrace
      rw [if_neg h]
      rw [show Action.openPhysical ::
            (Action.grab :: (relayActions env.reads ++ [Action.sleep 1]))
          = (Action.openPhysical :: Action.grab :: relayActions env.reads)
              ++ Action.sleep 1 :: [] by simp]
      rw [List.getLast?_append_cons]
      rfl

/-- Action trace of run() in gamepad.py (lines 149-195): wait for the first
device, extract its capabilities and identity, close it, construct the
single UInput virtual device from the captured values, invoke
create_symlinks (whose boolean result pubOk is supplied by the
environment and ignored by run), and then perform the forwarding loop
iterations. -/
def runTrace (first : Device) (pubOk : Bool) (iters : List IterEnv) : List Action :=
  Action.openPhysical :: Action.queryCapabilities :: Action.readIdentity ::
    Action.closePhysical ::
    Action.createVirtual (extract_capabilities first) first.bustype
      first.vendor first.product first.version ::
    Action.publishAliases pubOk ::
    iters.flatMap iterTrace

lemma bind_iterTrace_countP_create (its : List IterEnv) :
    (its.flatMap iterTrace).countP isCreate = 0 := by
  induction its with
  | nil => rfl
  | cons env rest ih =>
      simp [List.countP_append, iterTrace_countP_create, ih]

lemma bind_iterTrace_filter_create (its : List IterEnv) :
    (its.flatMap iterTrace).filter isCreate = [] := by
  have h := bind_iterTrace_countP_create its
  rw [List.countP_eq_length_filter] at h
  exact List.length_eq_zero.mp h

/-- Claim C3: the virtual device is created exactly once per process, with
capabilities and identity captured from the first opened physical device —
the identity being read before that handle is closed, as the fixed setup
prefix of the trace shows — and no iteration of the forwarding loop, over
arbitrarily many disconnect/reconnect cycles, ever recreates it. -/
theorem c3_virtual_device_once (first : Device) (pubOk : Bool)
    (its : List IterEnv) :
    (runTrace first pubOk its).filter isCreate
        = [Action.createVirtual (extract_capabilities first) first.bustype
            first.vendor first.product first.version]
    ∧ (its.flatMap iterTrace).countP isCreate = 0
    ∧ List.take 6 (runTrace first pubOk its)
        = [Action.openPhysical, Action.queryCapabilities, Action.readIdentity,
           Action.closePhysical,
           Action.createVirtual (extract_capabilities first) first.bustype
             first.vendor first.product first.version,
           Action.publishAliases pubOk]
    ∧ List.drop 6 (runTrace first pubOk its) = its.flatMap iterTrace := by
  refine ⟨?_, bind_iterTrace_countP_create its, rfl, rfl⟩
  show List.filter isCreate
      (Action.openPhysical :: Action.queryCapabilities :: Action.readIdentity ::
        Action.closePhysical ::
        Action.createVirtual (extract_capabilities first) first.bustype
          first.vendor first.product first.version ::
        Action.publishAliases pubOk :: its.flatMap iterTrace) = _
  simp only [List.filter_cons]
  rw [bind_iterTrace_filter_create]
  rfl

/-- A source device whose capability enumeration returns an empty result for
all categories: raw.get yields [] for EV_KEY, EV_ABS and EV_FF. -/
def emptyDev : Device :=
  { rawKeys := [], rawAbs := [], rawFF := [], absinfoQ := fun _ => none
  , bustype := 3, vendor := 4152, product := 5152, version := 273 }

/-- Claim C6 evaluated on the code: with a capability-less source device,
extract_capabilities returns a descriptor holding only an empty
digital-button list, and run() — which contains no emptiness check and no
exit call — still creates the virtual device from it and proceeds into
the forwarding loop.  The specified fatal diagnostic and distinct
non-zero exit status do not exist in the code. -/
theorem c6_empty_caps_no_fatal_exit :
    extract_capabilities emptyDev = { keys := some [], abs := none, ff := none }
    ∧ runTrace emptyDev true []
        = [Action.openPhysical, Action.queryCapabilities, Action.readIdentity,
           Action.closePhysical,
           Action.createVirtual { keys := some [], abs := none, ff := none }
             3 4152 5152 273,
           Action.publishAliases true]
    ∧ (runTrace emptyDev true []).countP isCreate = 1 :=
  ⟨rfl, rfl, rfl⟩

/-- Filesystem entry at a path: a regular file (device nodes included) or a
symbolic link with its target. -/
inductive FSEntry
  | file
  | symlink (target : String)
deriving DecidableEq, Repr

/-- Filesystem state seen by create_symlinks: entries at paths, plus which
paths are existing directories. -/
structure FS where
  entries : String → Option FSEntry
  dirs : String → Bool

lemma FS.eq_of (a b : FS) (h1 : a.entries = b.entries) (h2 : a.dirs = b.dirs) :
    a = b := by
  cases a; cases b; simp_all

/-- Update of the entry stored at one path. -/
def setEntry (fs : FS) (p : String) (v : Option FSEntry) : FS :=
  { fs with entries := fun q => if q = p then v else fs.entries q }

/-- Model of os.path.islink: true iff the path itself is a symbolic link,
dangling or not, without following it. -/
def islink (fs : FS) (p : String) : Bool :=
  match fs.entries p with
  | some (FSEntry.symlink _) => true
  | _ => false

/-- Symlink-following existence check with a resolution-depth fuel, the model
of os.path.exists: a directory or regular file exists; a symbolic link
exists iff its target does (so a dangling link does not exist). -/
def pathExists (fs : FS) : Nat → String → Bool
  | 0, _ => false
  | fuel + 1, p =>
      if fs.dirs p then true
      else
        match fs.entries p with
        | some FSEntry.file => true
        | some (FSEntry.symlink t) => pathExists fs fuel t
        | none => false

/-- Linux bounds symlink resolution; 40 steps is far beyond any chain the
claims exercise. -/
def symlinkResolveFuel : Nat := 40

/-- Model of os.path.exists. -/
def osExists (fs : FS) (p : String) : Bool :=
  pathExists fs symlinkResolveFuel p

/-- Model of os.unlink on a path whose removal succeeds (the error-free
filesystem; the source logs and skips on a failing unlink). -/
def unlink (fs : FS) (p : String) : FS :=
  setEntry fs p none

/-- Model of os.symlink(src, dst): creates the link when dst is free;
an occupied dst raises FileExistsError, which the source catches and logs,
leaving the filesystem unchanged. -/
def symlinkTo (fs : FS) (src dst : String) : FS :=
  if fs.dirs dst || (fs.entries dst).isSome then fs
  else setEntry fs dst (some (FSEntry.symlink src))

/-- Model of os.makedirs for the alias's parent directory (intermediate
parents are not observed by any claim). -/
def makedirs (fs : FS) (d : String) : FS :=
  { fs with dirs := fun q => if q = d then true else fs.dirs q }

/-- Model of os.path.dirname: the part of the path before its last slash,
with trailing slashes stripped unless the head is all slashes. -/
def dirname (p : String) : String :=
  let head : List Char := (p.data.reverse.dropWhile (fun c => c != '/')).reverse
  if head.isEmpty then String.mk head
  else if head.all (fun c => c == '/') then String.mk head
  else String.mk ((head.reverse.dropWhile (fun c => c == '/')).reverse)

/-- Embedding of the per-alias body of create_symlinks (gamepad.py lines
122-141): if the source device node exists, ensure the alias's parent
directory exists, remove any pre-existing entry at the alias path (checked
with islink-or-exists so that dangling links are caught too), then create
the symlink. -/
def linkChild (fs : FS) (src dst : String) : FS :=
  if osExists fs src then
    let fs1 := if osExists fs (dirname dst) then fs else makedirs fs (dirname dst)
    let fs2 := if islink fs1 dst || osExists fs1 dst then unlink fs1 dst else fs1
    symlinkTo fs2 src dst
  else fs

/-- Configuration values of gamepad.py (parse_args), opaque strings to the
core. -/
structure Config where
  device_link : String
  event_path : String
  js_path : String
  virtual_name : String

/-- One /sys/class/input directory entry as read by create_symlinks: the
entry's name, the contents of its name file (none models the
FileNotFoundError branch at line 108), and its child node names. -/
structure SysInputEntry where
  entry : String
  nameFileContents : Option String
  children : List String

/-- Model of Python's str.startswith as a character-list prefix test. -/
def strStartsWith (s p : String) : Bool :=
  p.data.isPrefixOf s.data

def devInputDir : String := "/dev/input/"

def inputEntryPat : String := "input"

def eventChildPat : String := "event"

def jsChildPat : String := "js"

/-- Whether a /sys entry is the virtual device create_symlinks is looking
for: name starts with input and the name file holds the configured
virtual-device display name. -/
def matchesVirtual (cfg : Config) (e : SysInputEntry) : Bool :=
  strStartsWith e.entry inputEntryPat &&
    (match e.nameFileContents with
     | some n => n = cfg.virtual_name
     | none => false)

/-- Processing of one child node of the matched /sys entry (lines 113-121):
eventX children are aliased at the configured event path, jsY children at
the configured joystick path, everything else is skipped. -/
def processChild (cfg : Config) (fs : FS) (child : String) : FS :=
  if strStartsWith child eventChildPat then
    linkChild fs (devInputDir ++ child) cfg.event_path
  else if strStartsWith child jsChildPat then
    linkChild fs (devInputDir ++ child) cfg.js_path
  else fs

/-- Embedding of create_symlinks (gamepad.py lines 92-145): scan the /sys
listing in order; skip entries not starting with input, entries whose name
file is missing, and entries with a different name; at the first match,
process its children and return True; return False when no entry matches. -/
def create_symlinks (cfg : Config) : List SysInputEntry → FS → Bool × FS
  | [], fs => (false, fs)
  | e :: rest, fs =>
      if strStartsWith e.entry inputEntryPat then
        match e.nameFileContents with
        | none => create_symlinks cfg rest fs
        | some n =>
            if n = cfg.virtual_name then
              (true, e.children.foldl (processChild cfg) fs)
            else create_symlinks cfg rest fs
      else create_symlinks cfg rest fs

lemma pathExists_file (fs : FS) (fuel : Nat) (p : String)
    (h : fs.entries p = some FSEntry.file) : pathExists fs (fuel + 1) p = true := by
  by_cases hd : fs.dirs p <;> simp [pathExists, hd, h]

lemma pathExists_dir (fs : FS) (fuel : Nat) (p : String)
    (h : fs.dirs p = true) : pathExists fs (fuel + 1) p = true := by
  simp [pathExists, h]

lemma osExists_file (fs : FS) (p : String)
    (h : fs.entries p = some FSEntry.file) : osExists fs p = true := by
  show pathExists fs (39 + 1) p = true
  exact pathExists_file fs 39 p h

lemma osExists_dir (fs : FS) (p : String)
    (h : fs.dirs p = true) : osExists fs p = true := by
  show pathExists fs (39 + 1) p = true
  exact pathExists_dir fs 39 p h

lemma osExists_not (fs : FS) (p : String)
    (h1 : fs.entries p = none) (h2 : fs.dirs p = false) :
    osExists fs p = false := by
  show pathExists fs (39 + 1) p = false
  simp [pathExists, h1, h2]

lemma osExists_link_file (fs : FS) (p t : String)
    (hp : fs.entries p = some (FSEntry.symlink t))
    (hd : fs.dirs p = false)
    (ht : fs.entries t = some FSEntry.file) :
    osExists fs p = true := by
  show pathExists fs (39 + 1) p = true
  simp only [pathExists, hd, hp, Bool.false_eq_true, if_false]
  exact pathExists_file fs 38 t ht

lemma setEntry_entries_same (fs : FS) (p : String) (v : Option FSEntry) :
    (setEntry fs p v).entries p = v := by
  simp [setEntry]

lemma setEntry_entries_other (fs : FS) (p q : String) (v : Option FSEntry)
    (h : q ≠ p) : (setEntry fs p v).entries q = fs.entries q := by
  simp [setEntry, h]

lemma setEntry_dirs (fs : FS) (p : String) (v : Option FSEntry) :
    (setEntry fs p v).dirs = fs.dirs := rfl

/-- Behaviour of one alias creation when the device node exists as a file,
the alias's parent directory already exists, and the alias path itself is
not a directory: whatever entry (file, live symlink, dangling symlink, or
nothing) previously sat at the alias path, the result is exactly the
filesystem with a fresh symlink to the device node at that path. -/
lemma linkChild_spec (fs : FS) (src dst : String)
    (hsrc : fs.entries src = some FSEntry.file)
    (hparent : fs.dirs (dirname dst) = true)
    (hdst : fs.dirs dst = false) :
    linkChild fs src dst = setEntry fs dst (some (FSEntry.symlink src)) := by
  have h1 : osExists fs src = true := osExists_file fs src hsrc
  have h2 : osExists fs (dirname dst) = true := osExists_dir fs (dirname dst) hparent
  rw [linkChild, h1, if_pos rfl, h2, if_pos rfl]
  dsimp only
  cases hd : fs.entries dst with
  | none =>
      have h3 : islink fs dst = false := by simp [islink, hd]
      have h4 : osExists fs dst = false := osExists_not fs dst hd hdst
      rw [h3, h4]
      simp only [Bool.or_self, Bool.false_eq_true, if_false]
      rw [symlinkTo, hdst, hd]
      simp
  | some ent =>
      have hcond : (islink fs dst || osExists fs dst) = true := by
        cases ent with
        | file =>
            have := osExists_file fs dst hd
            simp [this]
        | symlink t => simp [islink, hd]
      rw [hcond, if_pos rfl]
      rw [unlink, symlinkTo]
      have e1 : (setEntry fs dst none).dirs dst = false := hdst
      have e2 : (setEntry fs dst none).entries dst = none :=
        setEntry_entries_same fs dst none
      rw [e1, e2]
      simp only [Option.isSome_none, Bool.or_self, Bool.false_eq_true, if_false]
      apply FS.eq_of
      · funext q
        by_cases hq : q = dst <;> simp [setEntry, hq]
      · rfl

lemma create_symlinks_skip (cfg : Config) (x : SysInputEntry)
    (rest : List SysInputEntry) (fs : FS)
    (h : matchesVirtual cfg x = false) :
    create_symlinks cfg (x :: rest) fs = create_symlinks cfg rest fs := by
  rw [matchesVirtual] at h
  rw [create_symlinks]
  cases hsw : strStartsWith x.entry inputEntryPat with
  | false => simp [hsw]
  | true =>
      rw [hsw, Bool.true_and] at h
      cases hn : x.nameFileContents with
      | none => simp [hsw, hn]
      | some n =>
          rw [hn] at h
          simp only [decide_eq_false_iff_not] at h
          simp [hsw, hn, h]

lemma create_symlinks_skipAll (cfg : Config) (pre rest : List SysInputEntry)
    (fs : FS) (h : ∀ x ∈ pre, matchesVirtual cfg x = false) :
    create_symlinks cfg (pre ++ rest) fs = create_symlinks cfg rest fs := by
  induction pre with
  | nil => rfl
  | cons x xs ih =>
      rw [List.cons_append,
        create_symlinks_skip cfg x (xs ++ rest) fs (h x (by simp))]
      exact ih (fun y hy => h y (by simp [hy]))

lemma create_symlinks_hit (cfg : Config) (e : SysInputEntry)
    (post : List SysInputEntry) (fs : FS)
    (h1 : strStartsWith e.entry inputEntryPat = true)
    (h2 : e.nameFileContents = some cfg.virtual_name) :
    create_symlinks cfg (e :: post) fs
      = (true, e.children.foldl (processChild cfg) fs) := by
  rw [create_symlinks, h1]
  simp [h2]

lemma foldPair_spec (cfg : Config) (fs : FS) (cEv cJs : String)
    (hEv : strStartsWith cEv eventChildPat = true)
    (hJs1 : strStartsWith cJs eventChildPat = false)
    (hJs2 : strStartsWith cJs jsChildPat = true)
    (hsrcEv : fs.entries (devInputDir ++ cEv) = some FSEntry.file)
    (hsrcJs : fs.entries (devInputDir ++ cJs) = some FSEntry.file)
    (hdstEv : fs.dirs cfg.event_path = false)
    (hdstJs : fs.dirs cfg.js_path = false)
    (hparentEv : fs.dirs (dirname cfg.event_path) = true)
    (hparentJs : fs.dirs (dirname cfg.js_path) = true)
    (hs3 : devInputDir ++ cJs ≠ cfg.event_path) :
    [cEv, cJs].foldl (processChild cfg) fs
      = setEntry
          (setEntry fs cfg.event_path (some (FSEntry.symlink (devInputDir ++ cEv))))
          cfg.js_path (some (FSEntry.symlink (devInputDir ++ cJs))) := by
  have step1 : processChild cfg fs cEv
      = setEntry fs cfg.event_path (some (FSEntry.symlink (devInputDir ++ cEv))) := by
    rw [show processChild cfg fs cEv
        = linkChild fs (devInputDir ++ cEv) cfg.event_path by simp [processChild, hEv]]
    exact linkChild_spec fs _ _ hsrcEv hparentEv hdstEv
  set fsA := setEntry fs cfg.event_path
    (some (FSEntry.symlink (devInputDir ++ cEv))) with hfsA
  have hsrcJsA : fsA.entries (devInputDir ++ cJs) = some FSEntry.file := by
    rw [hfsA, setEntry_entries_other fs _ _ _ hs3]
    exact hsrcJs
  have step2 : processChild cfg fsA cJs
      = setEntry fsA cfg.js_path (some (FSEntry.symlink (devInputDir ++ cJs))) := by
    rw [show processChild cfg fsA cJs
        = linkChild fsA (devInputDir ++ cJs) cfg.js_path by
          simp [processChild, hJs1, hJs2]]
    exact linkChild_spec fsA _ _ hsrcJsA hparentJs hdstJs
  rw [List.foldl_cons, List.foldl_cons, List.foldl_nil, step1, step2]

/-- One full run of create_symlinks over a listing whose first matching
entry is the virtual device with one event child and one js child. -/
lemma publish_run (cfg : Config) (pre post : List SysInputEntry)
    (e : SysInputEntry) (cEv cJs : String) (g : FS)
    (hpre : ∀ x ∈ pre, matchesVirtual cfg x = false)
    (hentry : strStartsWith e.entry inputEntryPat = true)
    (hname : e.nameFileContents = some cfg.virtual_name)
    (hch : e.children = [cEv, cJs])
    (hEv : strStartsWith cEv eventChildPat = true)
    (hJs1 : strStartsWith cJs eventChildPat = false)
    (hJs2 : strStartsWith cJs jsChildPat = true)
    (hsrcEv : g.entries (devInputDir ++ cEv) = some FSEntry.file)
    (hsrcJs : g.entries (devInputDir ++ cJs) = some FSEntry.file)
    (hdstEv : g.dirs cfg.event_path = false)
    (hdstJs : g.dirs cfg.js_path = false)
    (hparentEv : g.dirs (dirname cfg.event_path) = true)
    (hparentJs : g.dirs (dirname cfg.js_path) = true)
    (hs3 : devInputDir ++ cJs ≠ cfg.event_path) :
    create_symlinks cfg (pre ++ e :: post) g
      = (true,
          setEntry
            (setEntry g cfg.event_path (some (FSEntry.symlink (devInputDir ++ cEv))))
            cfg.js_path (some (FSEntry.symlink (devInputDir ++ cJs)))) := by
  rw [create_symlinks_skipAll cfg pre (e :: post) g hpre,
    create_symlinks_hit cfg e post g hentry hname, hch,
    foldPair_spec cfg g cEv cJs hEv hJs1 hJs2 hsrcEv hsrcJs hdstEv hdstJs
      hparentEv hparentJs hs3]

/-- Claim C8: at each alias target path the publisher removes whatever
pre-existing entry was there — plain file, live symlink, or dangling
symlink — before creating the alias, a missing entry being fine, so that
after one run each target path holds a valid (resolvable) symlink to the
corresponding device node; and a second run over the same listing reports
success again and leaves the filesystem exactly as the first run did. -/
theorem c8_publisher_idempotent (cfg : Config) (fs : FS)
    (pre post : List SysInputEntry) (e : SysInputEntry) (cEv cJs : String)
    (hpre : ∀ x ∈ pre, matchesVirtual cfg x = false)
    (hentry : strStartsWith e.entry inputEntryPat = true)
    (hname : e.nameFileContents = some cfg.virtual_name)
    (hch : e.children = [cEv, cJs])
    (hEv : strStartsWith cEv eventChildPat = true)
    (hJs1 : strStartsWith cJs eventChildPat = false)
    (hJs2 : strStartsWith cJs jsChildPat = true)
    (hsrcEv : fs.entries (devInputDir ++ cEv) = some FSEntry.file)
    (hsrcJs : fs.entries (devInputDir ++ cJs) = some FSEntry.file)
    (hdstEv : fs.dirs cfg.event_path = false)
    (hdstJs : fs.dirs cfg.js_path = false)
    (hparentEv : fs.dirs (dirname cfg.event_path) = true)
    (hparentJs : fs.dirs (dirname cfg.js_path) = true)
    (hneEvJs : cfg.event_path ≠ cfg.js_path)
    (hs1 : devInputDir ++ cEv ≠ cfg.event_path)
    (hs2 : devInputDir ++ cEv ≠ cfg.js_path)
    (hs3 : devInputDir ++ cJs ≠ cfg.event_path)
    (hs4 : devInputDir ++ cJs ≠ cfg.js_path) :
    (create_symlinks cfg (pre ++ e :: post) fs).1 = true
    ∧ ((create_symlinks cfg (pre ++ e :: post) fs).2).entries cfg.event_path
        = some (FSEntry.symlink (devInputDir ++ cEv))
    ∧ ((create_symlinks cfg (pre ++ e :: post) fs).2).entries cfg.js_path
        = some (FSEntry.symlink (devInputDir ++ cJs))
    ∧ osExists (create_symlinks cfg (pre ++ e :: post) fs).2 cfg.event_path = true
    ∧ osExists (create_symlinks cfg (pre ++ e :: post) fs).2 cfg.js_path = true
    ∧ create_symlinks cfg (pre ++ e :: post)
          (create_symlinks cfg (pre ++ e :: post) fs).2
        = (true, (create_symlinks cfg (pre ++ e :: post) fs).2) := by
  have run1 := publish_run cfg pre post e cEv cJs fs hpre hentry hname hch
    hEv hJs1 hJs2 hsrcEv hsrcJs hdstEv hdstJs hparentEv hparentJs hs3
  set lEv := some (FSEntry.symlink (devInputDir ++ cEv)) with hlEv
  set lJs := some (FSEntry.symlink (devInputDir ++ cJs)) with hlJs
  set fs1 := setEntry (setEntry fs cfg.event_path lEv) cfg.js_path lJs with hfs1
  have f1 : fs1.entries cfg.event_path = lEv := by
    rw [hfs1, setEntry_entries_other _ _ _ _ hneEvJs, setEntry_entries_same]
  have f2 : fs1.entries cfg.js_path = lJs := by
    rw [hfs1, setEntry_entries_same]
  have fd : fs1.dirs = fs.dirs := rfl
  have fsrcEv1 : fs1.entries (devInputDir ++ cEv) = some FSEntry.file := by
    rw [hfs1, setEntry_entries_other _ _ _ _ hs2,
      setEntry_entries_other _ _ _ _ hs1]
    exact hsrcEv
  have fsrcJs1 : fs1.entries (devInputDir ++ cJs) = some FSEntry.file := by
    rw [hfs1, setEntry_entries_other _ _ _ _ hs4,
      setEntry_entries_other _ _ _ _ hs3]
    exact hsrcJs
  have run2 := publish_run cfg pre post e cEv cJs fs1 hpre hentry hname hch
    hEv hJs1 hJs2 fsrcEv1 fsrcJs1 (by rw [fd]; exact hdstEv)
    (by rw [fd]; exact hdstJs) (by rw [fd]; exact hparentEv)
    (by rw [fd]; exact hparentJs) hs3
  have hfix : setEntry (setEntry fs1 cfg.event_path lEv) cfg.js_path lJs = fs1 := by
    apply FS.eq_of
    · funext q
      by_cases hq1 : q = cfg.js_path
      · subst hq1
        rw [setEntry_entries_same, f2]
      · by_cases hq2 : q = cfg.event_path
        · subst hq2
          rw [setEntry_entries_other _ _ _ _ hq1, setEntry_entries_same, f1]
        · rw [setEntry_entries_other _ _ _ _ hq1,
            setEntry_entries_other _ _ _ _ hq2, hfs1,
            setEntry_entries_other _ _ _ _ hq1,
            setEntry_entries_other _ _ _ _ hq2]
    · rfl
  refine ⟨by rw [run1], ?_, ?_, ?_, ?_, ?_⟩
  · rw [run1]; exact f1
  · rw [run1]; exact f2
  · rw [run1]
    exact osExists_link_file fs1 cfg.event_path (devInputDir ++ cEv) f1
      (by rw [fd]; exact hdstEv) fsrcEv1
  · rw [run1]
    exact osExists_link_file fs1 cfg.js_path (devInputDir ++ cJs) f2
      (by rw [fd]; exact hdstJs) fsrcJs1
  · rw [run1]
    show create_symlinks cfg (pre ++ e :: post) fs1 = (true, fs1)
    rw [run2, hfix]

def evChildW : String := "event7"

def jsChildW : String := "js0"

def tmpDirW : String := "/tmp"

def staleTargetW : String := "/dev/input/event3"

/-- Configuration matching the defaults of parse_args. -/
def cfgW8 : Config :=
  { device_link := "/dev/input/by-id/usb-gamepad"
  , event_path := "/tmp/gamepad-event"
  , js_path := "/tmp/gamepad-js"
  , virtual_name := "VirtualGamepad" }

/-- The /sys entry of the virtual device, with one event and one js child. -/
def eW8 : SysInputEntry :=
  { entry := "input13"
  , nameFileContents := some cfgW8.virtual_name
  , children := [evChildW, jsChildW] }

/-- Concrete filesystem: both device nodes exist, /tmp is a directory, a
stale dangling symlink sits at the event alias path and a stale plain file
at the joystick alias path. -/
def fsW8 : FS :=
  { entries := fun p =>
      if p = devInputDir ++ evChildW then some FSEntry.file
      else if p = devInputDir ++ jsChildW then some FSEntry.file
      else if p = cfgW8.event_path then some (FSEntry.symlink staleTargetW)
      else if p = cfgW8.js_path then some FSEntry.file
      else none
  , dirs := fun p => p = tmpDirW }

/-- Witness for C8: in fsW8 a dangling symlink and a plain file pre-exist at
the two alias paths, and the C8 theorem applies, giving success, fresh
valid aliases, and an idempotent second run. -/
theorem c8_publisher_idempotent_witness :
    fsW8.entries cfgW8.event_path = some (FSEntry.symlink staleTargetW)
    ∧ fsW8.entries staleTargetW = none
    ∧ fsW8.entries cfgW8.js_path = some FSEntry.file
    ∧ ((create_symlinks cfgW8 ([] ++ eW8 :: []) fsW8).1 = true
       ∧ ((create_symlinks cfgW8 ([] ++ eW8 :: []) fsW8).2).entries cfgW8.event_path
           = some (FSEntry.symlink (devInputDir ++ evChildW))
       ∧ ((create_symlinks cfgW8 ([] ++ eW8 :: []) fsW8).2).entries cfgW8.js_path
           = some (FSEntry.symlink (devInputDir ++ jsChildW))
       ∧ osExists (create_symlinks cfgW8 ([] ++ eW8 :: []) fsW8).2 cfgW8.event_path
           = true
       ∧ osExists (create_symlinks cfgW8 ([] ++ eW8 :: []) fsW8).2 cfgW8.js_path
           = true
       ∧ create_symlinks cfgW8 ([] ++ eW8 :: [])
             (create_symlinks cfgW8 ([] ++ eW8 :: []) fsW8).2
           = (true, (create_symlinks cfgW8 ([] ++ eW8 :: []) fsW8).2)) :=
  ⟨by decide, by decide, by decide,
   c8_publisher_idempotent cfgW8 fsW8 [] [] eW8 evChildW jsChildW
     (by simp) (by decide) rfl rfl (by decide) (by decide) (by decide)
     (by decide) (by decide) (by decide) (by decide) (by decide) (by decide)
     (by decide) (by decide) (by decide) (by decide) (by decide)⟩

lemma relayActions_countP_publish (reads : List (Option Event)) :
    (relayActions reads).countP isPublish = 0 := by
  rw [relayActions_eq]
  induction reads.filterMap id with
  | nil => rfl
  | cons ev rest ih =>
      simp [List.countP_append, writeThenSyn, ih, isPublish, List.countP_cons]

lemma iterTrace_countP_publish (env : IterEnv) :
    (iterTrace env).countP isPublish = 0 := by
  by_cases h : env.grabFails <;>
    simp [iterTrace, h, List.countP_cons, List.countP_append,
      relayActions_countP_publish, isPublish]

lemma bind_iterTrace_countP_publish (its : List IterEnv) :
    (its.flatMap iterTrace).countP isPublish = 0 := by
  induction its with
  | nil => rfl
  | cons env rest ih =>
      simp [List.countP_append, iterTrace_countP_publish, ih]

/-- Claim C9: a publisher run that finds no entry named after the virtual
device returns False and leaves the filesystem untouched — it raises
nothing; and run() invokes the publisher exactly once, right after
creating the virtual device, then enters the forwarding loop with a trace
that does not depend on the publisher's boolean result. -/
theorem c9_publisher_nonfatal (cfg : Config) (sys : List SysInputEntry)
    (fs : FS) (h : ∀ x ∈ sys, matchesVirtual cfg x = false)
    (first : Device) (p : Bool) (its : List IterEnv) :
    create_symlinks cfg sys fs = (false, fs)
    ∧ (runTrace first p its).countP isPublish = 1
    ∧ List.take 6 (runTrace first p its)
        = [Action.openPhysical, Action.queryCapabilities, Action.readIdentity,
           Action.closePhysical,
           Action.createVirtual (extract_capabilities first) first.bustype
             first.vendor first.product first.version,
           Action.publishAliases p]
    ∧ List.drop 6 (runTrace first p its) = its.flatMap iterTrace
    ∧ List.drop 6 (runTrace first true its)
        = List.drop 6 (runTrace first false its) := by
  refine ⟨?_, ?_, rfl, rfl, rfl⟩
  · rw [show sys = sys ++ [] by rw [List.append_nil],
      create_symlinks_skipAll cfg sys [] fs h]
    rfl
  · have h0 : (its.flatMap iterTrace).countP isPublish = 0 :=
      bind_iterTrace_countP_publish its
    show List.countP isPublish
        (Action.openPhysical :: Action.queryCapabilities :: Action.readIdentity ::
          Action.closePhysical ::
          Action.createVirtual (extract_capabilities first) first.bustype
            first.vendor first.product first.version ::
          Action.publishAliases p :: its.flatMap iterTrace) = 1
    simp [List.countP_cons, isPublish, h0]

/-- A /sys listing holding a single entry whose name file is missing, so the
virtual device is not found. -/
def sysEntryW9 : SysInputEntry :=
  { entry := "input3", nameFileContents := none, children := [] }

def cfgW9 : Config :=
  { device_link := "/dev/input/event2"
  , event_path := "/tmp/gp-event"
  , js_path := "/tmp/gp-js"
  , virtual_name := "VirtualGamepad" }

def fsW9 : FS :=
  { entries := fun _ => none, dirs := fun _ => false }

def devW9 : Device :=
  { rawKeys := [304], rawAbs := [], rawFF := [], absinfoQ := fun _ => none
  , bustype := 3, vendor := 4152, product := 5152, version := 273 }

/-- Witness for C9 at a listing where no entry matches the virtual device's
name: the publisher returns False without touching the filesystem, and
run()'s trace still publishes once and proceeds into the loop. -/
theorem c9_publisher_nonfatal_witness :
    (∀ x ∈ [sysEntryW9], matchesVirtual cfgW9 x = false)
    ∧ (create_symlinks cfgW9 [sysEntryW9] fsW9 = (false, fsW9)
       ∧ (runTrace devW9 true []).countP isPublish = 1
       ∧ List.take 6 (runTrace devW9 true [])
           = [Action.openPhysical, Action.queryCapabilities, Action.readIdentity,
              Action.closePhysical,
              Action.createVirtual (extract_capabilities devW9) devW9.bustype
                devW9.vendor devW9.product devW9.version,
              Action.publishAliases true]
       ∧ List.drop 6 (runTrace devW9 true [])
           = ([] : List IterEnv).flatMap iterTrace
       ∧ List.drop 6 (runTrace devW9 true [])
           = List.drop 6 (runTrace devW9 false [])) :=
  ⟨by decide, c9_publisher_nonfatal cfgW9 [sysEntryW9] fsW9 (by decide)
    devW9 true []⟩

end GamepadProxy
